import Mathlib

/-!
Shallow embedding of the core logic of the SOP acknowledgment / training
application (src/app/main.py, src/app/learning.py, src/app/db.py).

Timestamps are modelled as integers (seconds); calendar dates as integer
day numbers, with `dayOf` extracting the date part of a timestamp (the
Python code extracts the `YYYY-MM-DD` prefix of a `YYYY-MM-DD HH:MM:SS`
string, which on an epoch-seconds timestamp is floor division by 86400).
Database tables are lists in insertion (rowid) order.  Fields that no
claim touches (created_at columns, ip_address, user_agent, question
text/options other than the correct option) are omitted.
-/

/-- Date part (day number) of a timestamp in seconds. -/
def dayOf (t : Int) : Int := Int.fdiv t 86400

/-- Row of the `sops` table: id, title, category, content and the
`current_version` counter (schema default 1). -/
structure Sop where
  id : Nat
  title : String
  category : String
  content : String
  current_version : Nat
deriving Repr, DecidableEq

/-- Row of the `sop_versions` table: immutable snapshot of a document at a
given version number. -/
structure SopVersion where
  sop_id : Nat
  version : Nat
  title : String
  category : String
  content : String
  created_by : Nat
deriving Repr, DecidableEq

/-- Row of the `staff` table (profile fields omitted). -/
structure Staff where
  id : Nat
  name : String
  active : Bool
deriving Repr, DecidableEq

/-- Row of the `acknowledgments` table (ip_address / user_agent omitted). -/
structure Acknowledgment where
  sop_id : Nat
  staff_id : Nat
  sop_version : Nat
  staff_name : String
  signature_text : String
  read_seconds : Int
  acknowledged_at : Int
deriving Repr, DecidableEq

/-- Row of the `training_modules` table. -/
structure TrainingModule where
  id : Nat
  sop_id : Nat
  title : String
  passing_score : Int
  recert_days : Int
  active : Bool
deriving Repr, DecidableEq

/-- Row of the `training_questions` table (only the fields the submit
handler reads: id order and the correct option). -/
structure TrainingQuestion where
  id : Nat
  module_id : Nat
  correct_option : String
deriving Repr, DecidableEq

/-- Row of the `training_attempts` table. -/
structure TrainingAttempt where
  module_id : Nat
  staff_id : Nat
  score : Int
  passed : Bool
  attempted_at : Int
deriving Repr, DecidableEq

/-- The SQLite database state: each table as a list in insertion order. -/
structure DB where
  sops : List Sop
  sop_versions : List SopVersion
  staff : List Staff
  acknowledgments : List Acknowledgment
  training_modules : List TrainingModule
  training_questions : List TrainingQuestion
  training_attempts : List TrainingAttempt
deriving Repr, DecidableEq

/-- Scan of an insertion-ordered list keeping the element with the
largest key, the later row winning ties. -/
def latestFrom {α : Type} (f : α → Int) (best : α) : List α → α
  | [] => best
  | x :: xs => if f best ≤ f x then latestFrom f x xs else latestFrom f best xs

/-- Semantics of `ORDER BY ts DESC LIMIT 1` over an insertion-ordered list: the
element with the largest key, later-inserted row winning ties. -/
def latestBy {α : Type} (f : α → Int) : List α → Option α
  | [] => none
  | x :: xs => some (latestFrom f x xs)

/-- Scan keeping the element with the smallest key, the earlier row
winning ties. -/
def firstFrom {α : Type} (f : α → Nat) (best : α) : List α → α
  | [] => best
  | x :: xs => if f x < f best then firstFrom f x xs else firstFrom f best xs

/-- Semantics of `ORDER BY id LIMIT 1`: the element with the smallest key,
earlier-inserted row winning ties. -/
def firstBy {α : Type} (f : α → Nat) : List α → Option α
  | [] => none
  | x :: xs => some (firstFrom f x xs)

/-- Outcome of the `acknowledge` handler (`POST /sop/{sop_id}/ack`).
The handler signals failure by redirecting without inserting; the
outcomes are named after the spec's error vocabulary.  The source issues
one redirect for a missing staff row or a missing sop row, so those two
conditions share one outcome. -/
inductive AckOutcome where
  | unknownStaffOrDocument
  | belowMinimumReadTime
  | ok
deriving Repr, DecidableEq

/-- The `acknowledge` handler (src/app/main.py lines 257-299), core part:
look up the staff row and the sop row; fail if either is missing; fail if
`read_seconds < MIN_READ_SECONDS`; otherwise insert an acknowledgment
whose `sop_version` is the sop's `current_version` as just read.  The
staff `active` flag is not consulted.  Returns the outcome and the
(possibly updated) database. -/
def acknowledge (db : DB) (sop_id staff_id : Nat) (signature_text : String)
    (read_seconds : Int) (now : Int) (min_read_seconds : Int) : AckOutcome × DB :=
  match db.staff.find? (fun s => s.id == staff_id),
        db.sops.find? (fun s => s.id == sop_id) with
  | some st, some sop =>
    if read_seconds < min_read_seconds then
      (AckOutcome.belowMinimumReadTime, db)
    else
      (AckOutcome.ok,
        { db with
          acknowledgments := db.acknowledgments ++
            [{ sop_id := sop_id, staff_id := staff_id,
               sop_version := sop.current_version, staff_name := st.name,
               signature_text := signature_text.trim,
               read_seconds := read_seconds, acknowledged_at := now }] })
  | _, _ => (AckOutcome.unknownStaffOrDocument, db)

/-- Attempts of a (module, staff) pair, in insertion order
(`WHERE module_id = ? AND staff_id = ?`). -/
def pairAttempts (db : DB) (module_id staff_id : Nat) : List TrainingAttempt :=
  db.training_attempts.filter
    (fun a => a.module_id == module_id && a.staff_id == staff_id)

/-- Most recent attempt of the pair
(`ORDER BY attempted_at DESC LIMIT 1`). -/
def latestAttempt (db : DB) (module_id staff_id : Nat) : Option TrainingAttempt :=
  latestBy (fun a => a.attempted_at) (pairAttempts db module_id staff_id)

/-- Most recent passing attempt of the pair
(`AND passed = 1 ORDER BY attempted_at DESC LIMIT 1`). -/
def latestPass (db : DB) (module_id staff_id : Nat) : Option TrainingAttempt :=
  latestBy (fun a => a.attempted_at)
    ((pairAttempts db module_id staff_id).filter (fun a => a.passed))

/-- The three recertification states of src/app/learning.py. -/
inductive ModuleState where
  | not_started
  | passed
  | due
deriving Repr, DecidableEq

/-- The `module_status` function (src/app/learning.py lines 29-65): returns
(state, last attempt timestamp, last score, last pass timestamp).
The due date is the date of the most recent attempt overall plus
`recert_days`; the state is `passed` only when that most recent attempt
itself passed and `today` has not gone past the due date. -/
def module_status (db : DB) (module_id staff_id : Nat) (today : Int) :
    ModuleState × Option Int × Option Int × Option Int :=
  match db.training_modules.find? (fun m => m.id == module_id) with
  | none => (ModuleState.not_started, none, none, none)
  | some m =>
    match latestAttempt db module_id staff_id with
    | none => (ModuleState.not_started, none, none, none)
    | some last =>
      let last_date := dayOf last.attempted_at
      let due_date := last_date + m.recert_days
      let last_pass_at := (latestPass db module_id staff_id).map
        (fun p => p.attempted_at)
      if last.passed && decide (today ≤ due_date) then
        (ModuleState.passed, some last.attempted_at, some last.score, last_pass_at)
      else
        (ModuleState.due, some last.attempted_at, some last.score, last_pass_at)

/-- The `is_locked_out` function (src/app/learning.py lines 68-91): attempts of the
pair with `attempted_at >= now - lockout_hours` (no upper bound in the
query); empty result or any pass in the result means not locked;
otherwise the failure count is compared with `max_attempts`. -/
def is_locked_out (db : DB) (module_id staff_id : Nat) (max_attempts : Int)
    (lockout_hours : Int) (now : Int) : Bool × Nat :=
  let window_start := now - lockout_hours * 3600
  let attempts := db.training_attempts.filter
    (fun a => a.module_id == module_id && a.staff_id == staff_id
      && window_start ≤ a.attempted_at)
  if attempts.isEmpty then (false, 0)
  else if attempts.any (fun a => a.passed) then (false, 0)
  else
    let failures := (attempts.filter (fun a => !a.passed)).length
    (decide (max_attempts ≤ (failures : Int)), failures)

/-- Attempts of the pair with timestamp inside the closed window
`[now - lockout_hours, now]` — the window the claim describes. -/
def windowAttempts (db : DB) (module_id staff_id : Nat)
    (lockout_hours : Int) (now : Int) : List TrainingAttempt :=
  (pairAttempts db module_id staff_id).filter
    (fun a => now - lockout_hours * 3600 ≤ a.attempted_at
      && a.attempted_at ≤ now)

/-- Modelled from the claim's words, for comparison with `is_locked_out`:
over the closed window, a pass yields (false, 0), otherwise the failure
count is compared with `max_attempts` — with no special case for an
empty window. -/
def lockoutSpec (db : DB) (module_id staff_id : Nat) (max_attempts : Int)
    (lockout_hours : Int) (now : Int) : Bool × Nat :=
  let w := windowAttempts db module_id staff_id lockout_hours now
  if w.any (fun a => a.passed) then (false, 0)
  else
    let failures := (w.filter (fun a => !a.passed)).length
    (decide (max_attempts ≤ (failures : Int)), failures)

/-- First question of a module (`ORDER BY id LIMIT 1`). -/
def firstQuestion (db : DB) (module_id : Nat) : Option TrainingQuestion :=
  firstBy (fun q => q.id)
    (db.training_questions.filter (fun q => q.module_id == module_id))

/-- Outcome of the quiz submission handler. -/
inductive SubmitOutcome where
  | notFound
  | locked
  | recorded (passed : Bool)
deriving Repr, DecidableEq

/-- The `learning_module_submit` handler (src/app/main.py lines 1262-1301), core
part: look up the module and its first question; fail if either is
missing; evaluate the lockout check and reject without recording when
locked; otherwise score the answer against the correct option and insert
a training attempt. -/
def learning_module_submit (db : DB) (module_id staff_id : Nat)
    (answer : String) (max_attempts : Int) (lockout_hours : Int) (now : Int) :
    SubmitOutcome × DB :=
  match db.training_modules.find? (fun m => m.id == module_id),
        firstQuestion db module_id with
  | some m, some q =>
    if (is_locked_out db module_id staff_id max_attempts lockout_hours now).1 then
      (SubmitOutcome.locked, db)
    else
      let is_correct := answer.toUpper == q.correct_option.toUpper
      let score : Int := if is_correct then 100 else 0
      let passed := m.passing_score ≤ score
      (SubmitOutcome.recorded passed,
        { db with
          training_attempts := db.training_attempts ++
            [{ module_id := module_id, staff_id := staff_id, score := score,
               passed := passed, attempted_at := now }] })
  | _, _ => (SubmitOutcome.notFound, db)

/-- The `admin_create` handler (src/app/main.py lines 326-354): insert a sop row
(`current_version` takes the schema default 1) and snapshot version 1.
`new_id` stands for the row id SQLite assigns (`cur.lastrowid`). -/
def admin_create (db : DB) (new_id : Nat) (title category content : String)
    (author : Nat) : DB :=
  { db with
    sops := db.sops ++
      [{ id := new_id, title := title.trim, category := category.trim,
         content := content.trim, current_version := 1 }],
    sop_versions := db.sop_versions ++
      [{ sop_id := new_id, version := 1, title := title.trim,
         category := category.trim, content := content.trim,
         created_by := author }] }

/-- One edit submission: the form fields of `admin_update`. -/
structure EditInput where
  title : String
  category : String
  content : String
  author : Nat
deriving Repr, DecidableEq

/-- The `admin_update` handler (src/app/main.py lines 375-413): fail (redirect) if
the sop id is unknown; otherwise bump `current_version` on the sop row
and append a `sop_versions` snapshot at the new number. -/
def admin_update (db : DB) (sop_id : Nat) (e : EditInput) : Option DB :=
  match db.sops.find? (fun s => s.id == sop_id) with
  | none => none
  | some existing =>
    let new_version := existing.current_version + 1
    some
      { db with
        sops := db.sops.map (fun s =>
          if s.id == sop_id then
            { s with title := e.title.trim, category := e.category.trim,
                     content := e.content.trim,
                     current_version := new_version }
          else s),
        sop_versions := db.sop_versions ++
          [{ sop_id := sop_id, version := new_version, title := e.title.trim,
             category := e.category.trim, content := e.content.trim,
             created_by := e.author }] }

/-- Apply a sequence of edit operations to one document, stopping (as
the handler would) if the document id is ever unknown. -/
def applyEdits (db : DB) (sop_id : Nat) : List EditInput → Option DB
  | [] => some db
  | e :: es =>
    match admin_update db sop_id e with
    | none => none
    | some db' => applyEdits db' sop_id es

/-- Version rows of one document, in insertion order
(`WHERE sop_id = ?`). -/
def versionsFor (db : DB) (sop_id : Nat) : List SopVersion :=
  db.sop_versions.filter (fun v => v.sop_id == sop_id)

/-- Insert a version row into a list kept in descending version order. -/
def insertDesc (v : SopVersion) : List SopVersion → List SopVersion
  | [] => [v]
  | w :: ws =>
    if w.version ≤ v.version then v :: w :: ws else w :: insertDesc v ws

/-- Sort version rows by version number, descending
(`ORDER BY version DESC`; version numbers of one document are distinct,
so tie order is immaterial). -/
def sortVersionsDesc : List SopVersion → List SopVersion
  | [] => []
  | v :: vs => insertDesc v (sortVersionsDesc vs)

/-- The `versionHistory` view: the version rows of a document, descending by
version (src/app/main.py line 635). -/
def versionHistory (db : DB) (sop_id : Nat) : List SopVersion :=
  sortVersionsDesc (versionsFor db sop_id)

/-- The `current_version` of a document as the handlers read it. -/
def currentVersionOf (db : DB) (sop_id : Nat) : Option Nat :=
  (db.sops.find? (fun s => s.id == sop_id)).map (fun s => s.current_version)

/-- The `start_date` query parameter of the compliance dashboard: absent,
present but not parseable as `YYYY-MM-DD`, or a valid date (day number). -/
inductive StartParam where
  | absent
  | malformed
  | valid (d : Int)
deriving Repr, DecidableEq

/-- Effective window start of `compliance_dashboard` (src/app/main.py
lines 1507-1515): `cutoff = today - REACK_DAYS`; a supplied, parseable
`start_date` replaces it only when strictly later; a missing or
unparseable parameter leaves the cutoff. -/
def effective_start (today reack_days : Int) (p : StartParam) : Int :=
  let cutoff := today - reack_days
  match p with
  | StartParam.valid s => if cutoff < s then s else cutoff
  | _ => cutoff

/-- The dashboard's date clause on an acknowledgment:
`date(acknowledged_at) >= effective_start` and, when an `end_date` was
supplied, `date(acknowledged_at) <= end_date`. -/
def ackInWindow (eff_start : Int) (end_date : Option Int)
    (a : Acknowledgment) : Bool :=
  decide (eff_start ≤ dayOf a.acknowledged_at) &&
    match end_date with
    | none => true
    | some e => decide (dayOf a.acknowledged_at ≤ e)

/-- Active staff roster (`WHERE active = 1`). -/
def dashStaff (db : DB) : List Staff :=
  db.staff.filter (fun s => s.active)

/-- Does the staff table hold an active row with this id (the dashboard's
`JOIN staff ON staff.id = acknowledgments.staff_id AND staff.active = 1`)? -/
def isActiveStaffId (db : DB) (staff_id : Nat) : Bool :=
  db.staff.any (fun s => s.id == staff_id && s.active)

/-- Is the (document, staff) pair counted by the dashboard rollups: at
least one acknowledgment of the pair whose date falls in the window.
The acknowledgment's `sop_version` is not consulted. -/
def staffCountedForSop (db : DB) (eff_start : Int) (end_date : Option Int)
    (sop_id staff_id : Nat) : Bool :=
  db.acknowledgments.any (fun a =>
    a.sop_id == sop_id && a.staff_id == staff_id
      && ackInWindow eff_start end_date a)

/-- One `ack_by_sop` entry for one document: number of distinct active staff
with an in-window acknowledgment of it (src/app/main.py lines 1526-1542). -/
def ack_count_for_sop (db : DB) (eff_start : Int) (end_date : Option Int)
    (sop_id : Nat) : Nat :=
  ((db.acknowledgments.filter (fun a =>
      a.sop_id == sop_id && isActiveStaffId db a.staff_id
        && ackInWindow eff_start end_date a)).map
    (fun a => a.staff_id)).dedup.length

/-- The overdue query for one document: active staff with no in-window
acknowledgment of it (src/app/main.py lines 1604-1616; the `ORDER BY
name` is dropped, no claim concerns the order). -/
def missing_staff_for (db : DB) (eff_start : Int) (end_date : Option Int)
    (sop_id : Nat) : List Staff :=
  (dashStaff db).filter (fun s =>
    !staffCountedForSop db eff_start end_date sop_id s.id)

/-- One entry of the dashboard's overdue list. -/
structure OverdueEntry where
  sop_title : String
  missing : List String
deriving Repr, DecidableEq

/-- The dashboard's overdue list (src/app/main.py lines 1601-1623):
built only when both the active roster and the document set are
non-empty; one entry per document with a non-empty missing list. -/
def overdue (db : DB) (eff_start : Int) (end_date : Option Int) :
    List OverdueEntry :=
  if (dashStaff db).length = 0 ∨ db.sops.length = 0 then []
  else
    db.sops.filterMap (fun sop =>
      let missing := (missing_staff_for db eff_start end_date sop.id).map
        (fun s => s.name)
      if missing.isEmpty then none
      else some { sop_title := sop.title, missing := missing })

/-- The `total_ack_pairs` sum (src/app/main.py line 1626): distinct
(document, active staff) pairs with an in-window acknowledgment, over
every sop id appearing in the ledger. -/
def total_ack_pairs (db : DB) (eff_start : Int) (end_date : Option Int) : Nat :=
  ((db.acknowledgments.filter (fun a =>
      isActiveStaffId db a.staff_id && ackInWindow eff_start end_date a)).map
    (fun a => (a.sop_id, a.staff_id))).dedup.length

/-- The `overall_percent` value (src/app/main.py lines 1625-1627): pairs over
(active staff count × document count), as a percentage, with the
zero-denominator guard. -/
def overall_percent (db : DB) (eff_start : Int) (end_date : Option Int) : Rat :=
  let total_required := (dashStaff db).length * db.sops.length
  if total_required = 0 then 0
  else (total_ack_pairs db eff_start end_date : Rat) / (total_required : Rat) * 100

/-- Distinct documents a staff member acknowledged in-window
(src/app/main.py lines 1572-1582; the inner query groups the ledger by
sop id, without joining the sops table). -/
def ackedCount (db : DB) (eff_start : Int) (end_date : Option Int)
    (staff_id : Nat) : Nat :=
  ((db.acknowledgments.filter (fun a =>
      a.staff_id == staff_id && ackInWindow eff_start end_date a)).map
    (fun a => a.sop_id)).dedup.length

/-- One row of the dashboard's per-staff completion table. -/
structure CompletionRow where
  name : String
  acked : Nat
  total : Nat
  percent : Rat
deriving Repr, DecidableEq

/-- The `staff_completion` table (src/app/main.py lines 1570-1586): one row per
active staff member, percent guarded against an empty document set. -/
def staff_completion (db : DB) (eff_start : Int) (end_date : Option Int) :
    List CompletionRow :=
  (dashStaff db).map (fun s =>
    let acked := ackedCount db eff_start end_date s.id
    { name := s.name, acked := acked, total := db.sops.length,
      percent :=
        if db.sops.length = 0 then 0
        else (acked : Rat) / (db.sops.length : Rat) * 100 })

/-- Active training modules (`WHERE active = 1`). -/
def lms_modules (db : DB) : List TrainingModule :=
  db.training_modules.filter (fun m => m.active)

/-- Has the staff member a pass of the module whose recertification due
date has not elapsed (src/app/main.py lines 1640-1652)? -/
def moduleCompleted (db : DB) (m : TrainingModule) (staff_id : Nat)
    (today : Int) : Bool :=
  match latestPass db m.id staff_id with
  | none => false
  | some lp => decide (today ≤ dayOf lp.attempted_at + m.recert_days)

/-- One row of the LMS compliance snapshot. -/
structure LmsRow where
  staff : String
  completed : Nat
  total : Nat
  percent : Rat
deriving Repr, DecidableEq

/-- One row of the LMS overdue list. -/
structure LmsOverdueRow where
  staff : String
  module_title : String
deriving Repr, DecidableEq

/-- The LMS snapshot of the compliance dashboard (src/app/main.py lines
1629-1659): built only when both the active roster and the active module
set are non-empty; per staff member a completion row, and an overdue row
per (staff, module) not completed. -/
def lms_rows (db : DB) (today : Int) : List LmsRow × List LmsOverdueRow :=
  if (dashStaff db).isEmpty || (lms_modules db).isEmpty then ([], [])
  else
    let module_count := (lms_modules db).length
    ((dashStaff db).map (fun s =>
        let completed := ((lms_modules db).filter
          (fun m => moduleCompleted db m s.id today)).length
        { staff := s.name, completed := completed, total := module_count,
          percent :=
            if module_count = 0 then 0
            else (completed : Rat) / (module_count : Rat) * 100 }),
      (dashStaff db).flatMap (fun s =>
        ((lms_modules db).filter
          (fun m => !moduleCompleted db m s.id today)).map
          (fun m => { staff := s.name, module_title := m.title })))

/-- The spec's `latestAcknowledgment`: maximum-timestamp acknowledgment
of the (document, staff) pair, later insertion winning ties. -/
def latestAcknowledgment (db : DB) (sop_id staff_id : Nat) :
    Option Acknowledgment :=
  latestBy (fun a => a.acknowledged_at)
    (db.acknowledgments.filter
      (fun a => a.sop_id == sop_id && a.staff_id == staff_id))

/-- Rewrite the `sop_version` field of every ledger row — used to state
that the dashboard rollups never consult that field. -/
def setAckVersions (f : Acknowledgment → Nat) (db : DB) : DB :=
  { db with
    acknowledgments := db.acknowledgments.map
      (fun a => { a with sop_version := f a }) }

/-- Drop every ledger row whose date is before the re-acknowledgment
cutoff — used to state that such rows never reach a rollup. -/
def dropOldAcks (cutoff : Int) (db : DB) : DB :=
  { db with
    acknowledgments := db.acknowledgments.filter
      (fun a => decide (cutoff ≤ dayOf a.acknowledged_at)) }

/-- An empty database. -/
def emptyDB : DB :=
  { sops := [], sop_versions := [], staff := [], acknowledgments := [],
    training_modules := [], training_questions := [], training_attempts := [] }

/-- Example: an active staff member. -/
def exStaffA : Staff := { id := 1, name := "A", active := true }

/-- Example: an inactive staff member with the same id space. -/
def exStaffInactive : Staff := { id := 1, name := "B", active := false }

/-- Example: a document currently at version 3. -/
def exSopV3 : Sop :=
  { id := 1, title := "S", category := "c", content := "x",
    current_version := 3 }

/-- Example: an acknowledgment recorded at version 2 of `exSopV3`, with a
recent timestamp (day 20000). -/
def exAckV2 : Acknowledgment :=
  { sop_id := 1, staff_id := 1, sop_version := 2, staff_name := "A",
    signature_text := "A", read_seconds := 30,
    acknowledged_at := 1728000000 }

/-- Example database for the version-blind rollup counterexample. -/
def exDB1 : DB :=
  { emptyDB with
    sops := [exSopV3], staff := [exStaffA],
    acknowledgments := [exAckV2] }

/-- Example: a training module with a 30-day recertification period. -/
def exModule30 : TrainingModule :=
  { id := 1, sop_id := 1, title := "M", passing_score := 80,
    recert_days := 30, active := true }

/-- Example: a passing attempt on day 0. -/
def exPassDay0 : TrainingAttempt :=
  { module_id := 1, staff_id := 1, score := 100, passed := true,
    attempted_at := 0 }

/-- Example: a failing attempt on day 1. -/
def exFailDay1 : TrainingAttempt :=
  { module_id := 1, staff_id := 1, score := 0, passed := false,
    attempted_at := 86400 }

/-- Example database: a valid pass followed by a more recent failure. -/
def exDB2 : DB :=
  { emptyDB with
    training_modules := [exModule30],
    training_attempts := [exPassDay0, exFailDay1] }

/-- Example: three failed attempts followed by a pass, all within a
24-hour window of `now = 500`. -/
def exAttemptsReset : List TrainingAttempt :=
  [ { module_id := 1, staff_id := 1, score := 0, passed := false, attempted_at := 100 },
    { module_id := 1, staff_id := 1, score := 0, passed := false, attempted_at := 200 },
    { module_id := 1, staff_id := 1, score := 0, passed := false, attempted_at := 300 },
    { module_id := 1, staff_id := 1, score := 100, passed := true, attempted_at := 400 } ]

/-- Example database for the lockout-reset-on-pass scenario. -/
def exDBReset : DB := { emptyDB with training_attempts := exAttemptsReset }

/-- Example database for the locked-submission scenario: a module with
one question and three recent failures. -/
def exDBLocked : DB :=
  { emptyDB with
    training_modules := [exModule30],
    training_questions := [{ id := 1, module_id := 1, correct_option := "A" }],
    training_attempts := exAttemptsReset.take 3 }

/-- Example database with one active staff member and one document. -/
def exDB4 : DB := { emptyDB with sops := [exSopV3], staff := [exStaffA] }

/-- Example database with an inactive staff member and one document. -/
def exDB8 : DB := { emptyDB with sops := [exSopV3], staff := [exStaffInactive] }

/-- Example: a first edit submission. -/
def exEdit1 : EditInput :=
  { title := "t1", category := "c1", content := "x1", author := 2 }

/-- Example: a second edit submission. -/
def exEdit2 : EditInput :=
  { title := "t2", category := "c2", content := "x2", author := 2 }

theorem latestFrom_eq_or_mem {α : Type} (f : α → Int) (l : List α) (b : α) :
    latestFrom f b l = b ∨ latestFrom f b l ∈ l := by
  induction l generalizing b with
  | nil => exact Or.inl rfl
  | cons x xs ih =>
    rw [latestFrom]
    by_cases h : f b ≤ f x
    · rw [if_pos h]
      rcases ih x with h1 | h1
      · exact Or.inr (by rw [h1]; exact List.mem_cons_self x xs)
      · exact Or.inr (List.mem_cons_of_mem x h1)
    · rw [if_neg h]
      rcases ih b with h1 | h1
      · exact Or.inl h1
      · exact Or.inr (List.mem_cons_of_mem x h1)

theorem latestFrom_le {α : Type} (f : α → Int) (l : List α) (b : α) :
    f b ≤ f (latestFrom f b l) ∧ ∀ z ∈ l, f z ≤ f (latestFrom f b l) := by
  induction l generalizing b with
  | nil => exact ⟨le_refl _, by simp⟩
  | cons x xs ih =>
    rw [latestFrom]
    by_cases h : f b ≤ f x
    · rw [if_pos h]
      refine ⟨le_trans h (ih x).1, ?_⟩
      intro z hz
      rcases List.mem_cons.mp hz with h2 | h2
      · rw [h2]; exact (ih x).1
      · exact (ih x).2 z h2
    · rw [if_neg h]
      refine ⟨(ih b).1, ?_⟩
      intro z hz
      rcases List.mem_cons.mp hz with h2 | h2
      · rw [h2]; exact le_trans (le_of_lt (lt_of_not_le h)) (ih b).1
      · exact (ih b).2 z h2

theorem latestBy_mem {α : Type} {f : α → Int} {l : List α} {x : α}
    (h : latestBy f l = some x) : x ∈ l := by
  cases l with
  | nil => simp [latestBy] at h
  | cons a as =>
    rw [latestBy] at h
    have hx : latestFrom f a as = x := Option.some.inj h
    rcases latestFrom_eq_or_mem f as a with h1 | h1
    · exact (hx ▸ h1) ▸ List.mem_cons_self a as
    · exact List.mem_cons_of_mem a (hx ▸ h1)

theorem latestBy_le {α : Type} {f : α → Int} {l : List α} {x : α}
    (h : latestBy f l = some x) : ∀ z ∈ l, f z ≤ f x := by
  cases l with
  | nil => simp [latestBy] at h
  | cons a as =>
    rw [latestBy] at h
    have hx : latestFrom f a as = x := Option.some.inj h
    intro z hz
    rcases List.mem_cons.mp hz with rfl | hz
    · exact hx ▸ (latestFrom_le f as z).1
    · exact hx ▸ (latestFrom_le f as a).2 z hz

theorem latestBy_eq_none_iff {α : Type} (f : α → Int) (l : List α) :
    latestBy f l = none ↔ l = [] := by
  cases l with
  | nil => simp [latestBy]
  | cons a as => simp [latestBy]

theorem latestBy_isSome {α : Type} (f : α → Int) {l : List α} (h : l ≠ []) :
    ∃ x, latestBy f l = some x := by
  cases l with
  | nil => exact absurd rfl h
  | cons a as => exact ⟨latestFrom f a as, rfl⟩

theorem insertDesc_eq_append (v : SopVersion) (l : List SopVersion)
    (h : ∀ w ∈ l, v.version < w.version) : insertDesc v l = l ++ [v] := by
  induction l with
  | nil => rfl
  | cons w ws ih =>
    rw [insertDesc, if_neg (by
      have := h w (List.mem_cons_self w ws)
      omega)]
    rw [ih (fun u hu => h u (List.mem_cons_of_mem w hu))]
    rfl

theorem sortVersionsDesc_of_ascending (l : List SopVersion)
    (h : l.Pairwise (fun a b => a.version < b.version)) :
    sortVersionsDesc l = l.reverse := by
  induction l with
  | nil => rfl
  | cons v vs ih =>
    have hp := List.pairwise_cons.mp h
    rw [sortVersionsDesc, ih hp.2,
      insertDesc_eq_append v vs.reverse
        (fun w hw => hp.1 w (List.mem_reverse.mp hw))]
    simp

theorem admin_update_eq_some {db : DB} {sop_id : Nat} {s0 : Sop} (e : EditInput)
    (h : db.sops.find? (fun s => s.id == sop_id) = some s0) :
    admin_update db sop_id e = some
      { db with
        sops := db.sops.map (fun s =>
          if s.id == sop_id then
            { s with title := e.title.trim, category := e.category.trim,
                     content := e.content.trim,
                     current_version := s0.current_version + 1 }
          else s),
        sop_versions := db.sop_versions ++
          [{ sop_id := sop_id, version := s0.current_version + 1,
             title := e.title.trim, category := e.category.trim,
             content := e.content.trim, created_by := e.author }] } := by
  unfold admin_update
  rw [h]

theorem admin_update_appends {db : DB} {sop_id : Nat} {e : EditInput} {db' : DB}
    (h : admin_update db sop_id e = some db') :
    ∃ r, db'.sop_versions = db.sop_versions ++ [r] := by
  cases hf : db.sops.find? (fun s => s.id == sop_id) with
  | none =>
    unfold admin_update at h
    rw [hf] at h
    simp at h
  | some s0 =>
    rw [admin_update_eq_some e hf] at h
    exact ⟨_, by rw [← Option.some.inj h]⟩

theorem applyEdits_invariant (sop_id : Nat) (edits : List EditInput) :
    ∀ (db : DB) (n : Nat),
      (∃ s, s ∈ db.sops ∧ s.id = sop_id) →
      (∀ s ∈ db.sops, s.id = sop_id → s.current_version = n) →
      ((versionsFor db sop_id).map (fun v => v.version) = List.range' 1 n) →
      ∃ dbN, applyEdits db sop_id edits = some dbN
        ∧ (∃ s, s ∈ dbN.sops ∧ s.id = sop_id)
        ∧ (∀ s ∈ dbN.sops, s.id = sop_id → s.current_version = n + edits.length)
        ∧ ((versionsFor dbN sop_id).map (fun v => v.version)
            = List.range' 1 (n + edits.length))
        ∧ ∃ rest, dbN.sop_versions = db.sop_versions ++ rest := by
  induction edits with
  | nil =>
    intro db n hex hall hver
    exact ⟨db, rfl, hex, by simpa using hall, by simpa using hver, [], by simp⟩
  | cons e es ih =>
    intro db n hex hall hver
    obtain ⟨s0, hs0mem, hs0id⟩ := hex
    have hsome : (db.sops.find? (fun s => s.id == sop_id)).isSome := by
      rw [List.find?_isSome]
      exact ⟨s0, hs0mem, by simp [hs0id]⟩
    obtain ⟨t, ht⟩ := Option.isSome_iff_exists.mp hsome
    have htid : t.id = sop_id := by simpa using List.find?_some ht
    have htmem : t ∈ db.sops := List.mem_of_find?_eq_some ht
    have htcv : t.current_version = n := hall t htmem htid
    have hstep := admin_update_eq_some e ht
    set db' : DB :=
      { db with
        sops := db.sops.map (fun s =>
          if s.id == sop_id then
            { s with title := e.title.trim, category := e.category.trim,
                     content := e.content.trim,
                     current_version := t.current_version + 1 }
          else s),
        sop_versions := db.sop_versions ++
          [{ sop_id := sop_id, version := t.current_version + 1,
             title := e.title.trim, category := e.category.trim,
             content := e.content.trim, created_by := e.author }] } with hdb'
    have hex' : ∃ s, s ∈ db'.sops ∧ s.id = sop_id := by
      refine ⟨{ s0 with title := e.title.trim, category := e.category.trim,
                        content := e.content.trim,
                        current_version := t.current_version + 1 }, ?_, hs0id⟩
      rw [hdb']
      have : ({ s0 with title := e.title.trim, category := e.category.trim,
                        content := e.content.trim,
                        current_version := t.current_version + 1 } : Sop)
          = (fun s => if s.id == sop_id then
              ({ s with title := e.title.trim, category := e.category.trim,
                        content := e.content.trim,
                        current_version := t.current_version + 1 } : Sop)
             else s) s0 := by
        simp [hs0id]
      rw [this]
      exact List.mem_map_of_mem _ hs0mem
    have hall' : ∀ s ∈ db'.sops, s.id = sop_id →
        s.current_version = n + 1 := by
      intro s hs hid
      rw [hdb'] at hs
      obtain ⟨u, humem, hu⟩ := List.mem_map.mp hs
      by_cases hc : u.id == sop_id
      · rw [if_pos hc] at hu
        rw [← hu]
        simp [htcv]
      · rw [if_neg hc] at hu
        rw [← hu] at hid
        exact absurd hid (by simpa using hc)
    have hver' : (versionsFor db' sop_id).map (fun v => v.version)
        = List.range' 1 (n + 1) := by
      rw [hdb']
      unfold versionsFor at hver ⊢
      rw [List.filter_append, List.map_append, hver]
      simp [htcv, List.range'_1_concat, Nat.add_comm]
    obtain ⟨dbN, happ, hexN, hallN, hverN, rest, hrest⟩ := ih db' (n + 1) hex' hall' hver'
    refine ⟨dbN, ?_, hexN, ?_, ?_, ?_⟩
    · simp only [applyEdits, hstep]
      exact happ
    · intro s hs hid
      rw [hallN s hs hid]
      simp [Nat.add_assoc, Nat.add_comm 1 es.length]
    · rw [hverN]
      congr 1
      simp [Nat.add_assoc, Nat.add_comm 1 es.length]
    · refine ⟨{ sop_id := sop_id, version := t.current_version + 1,
                title := e.title.trim, category := e.category.trim,
                content := e.content.trim,
                created_by := e.author } :: rest, ?_⟩
      rw [hrest, hdb']
      simp

/-- C5: starting from a fresh document id, creating the document and
applying N edits always succeeds; afterwards `current_version` is N+1,
the version history is exactly the N+1 version rows numbered N+1 down to
1 (descending), and version rows are never modified: the creation and
every successful edit only append one row to `sop_versions`. -/
theorem c5_version_monotonicity (db0 : DB) (sop_id : Nat)
    (t c k : String) (author : Nat) (edits : List EditInput)
    (hs : ∀ s ∈ db0.sops, s.id ≠ sop_id)
    (hv : ∀ v ∈ db0.sop_versions, v.sop_id ≠ sop_id) :
    (∃ dbN,
      applyEdits (admin_create db0 sop_id t c k author) sop_id edits = some dbN
      ∧ currentVersionOf dbN sop_id = some (edits.length + 1)
      ∧ (versionHistory dbN sop_id).map (fun v => v.version)
          = (List.range' 1 (edits.length + 1)).reverse
      ∧ (versionHistory dbN sop_id).length = edits.length + 1
      ∧ (admin_create db0 sop_id t c k author).sop_versions
          = db0.sop_versions ++
            [{ sop_id := sop_id, version := 1, title := t.trim,
               category := c.trim, content := k.trim, created_by := author }]
      ∧ ∃ rest, dbN.sop_versions = db0.sop_versions ++ rest)
    ∧ (∀ dbA e dbB, admin_update dbA sop_id e = some dbB →
        ∃ r, dbB.sop_versions = dbA.sop_versions ++ [r]) := by
  constructor
  · set db1 := admin_create db0 sop_id t c k author with hdb1
    have hex1 : ∃ s, s ∈ db1.sops ∧ s.id = sop_id := by
      refine ⟨{ id := sop_id, title := t.trim, category := c.trim,
                content := k.trim, current_version := 1 }, ?_, rfl⟩
      rw [hdb1]
      unfold admin_create
      simp
    have hall1 : ∀ s ∈ db1.sops, s.id = sop_id → s.current_version = 1 := by
      intro s hsmem hid
      rw [hdb1] at hsmem
      unfold admin_create at hsmem
      simp at hsmem
      rcases hsmem with h1 | h1
      · exact absurd hid (hs s h1)
      · rw [h1]
    have hver1 : (versionsFor db1 sop_id).map (fun v => v.version)
        = List.range' 1 1 := by
      rw [hdb1]
      unfold admin_create versionsFor
      simp only [List.filter_append]
      rw [List.filter_eq_nil_iff.mpr (by
        intro a ha
        simp [hv a ha])]
      simp
    obtain ⟨dbN, happ, hexN, hallN, hverN, rest1, hrest1⟩ :=
      applyEdits_invariant sop_id edits db1 1 hex1 hall1 hver1
    have hsomeN : (dbN.sops.find? (fun s => s.id == sop_id)).isSome := by
      rw [List.find?_isSome]
      obtain ⟨u, humem, huid⟩ := hexN
      exact ⟨u, humem, by simp [huid]⟩
    obtain ⟨u, hu⟩ := Option.isSome_iff_exists.mp hsomeN
    have huid : u.id = sop_id := by simpa using List.find?_some hu
    have hucv : u.current_version = 1 + edits.length :=
      hallN u (List.mem_of_find?_eq_some hu) huid
    have hpair : (versionsFor dbN sop_id).Pairwise
        (fun a b => a.version < b.version) := by
      have hp := List.pairwise_lt_range' 1 (1 + edits.length)
      rw [← hverN] at hp
      exact List.pairwise_map.mp hp
    have hsort := sortVersionsDesc_of_ascending _ hpair
    refine ⟨dbN, happ, ?_, ?_, ?_, ?_, ?_⟩
    · unfold currentVersionOf
      rw [hu]
      simp [hucv, Nat.add_comm]
    · unfold versionHistory
      rw [hsort, List.map_reverse, hverN, Nat.add_comm 1 edits.length]
    · unfold versionHistory
      rw [hsort, List.length_reverse]
      have hlen : ((versionsFor dbN sop_id).map (fun v => v.version)).length
          = (List.range' 1 (1 + edits.length)).length := by rw [hverN]
      rw [List.length_map, List.length_range'] at hlen
      omega
    · rw [hdb1]
      unfold admin_create
      rfl
    · refine ⟨{ sop_id := sop_id, version := 1, title := t.trim,
                category := c.trim, content := k.trim,
                created_by := author } :: rest1, ?_⟩
      rw [hrest1, hdb1]
      unfold admin_create
      simp
  · intro dbA e dbB h
    exact admin_update_appends h

/-- Witness for C5: from an empty database, creating document 1 and
editing it twice yields `current_version = 3` and history [3, 2, 1]. -/
theorem c5_version_monotonicity_witness :
    (∃ dbN,
      applyEdits (admin_create emptyDB 1 "t" "c" "x" 7) 1 [exEdit1, exEdit2]
          = some dbN
      ∧ currentVersionOf dbN 1 = some 3
      ∧ (versionHistory dbN 1).map (fun v => v.version)
          = (List.range' 1 3).reverse
      ∧ (versionHistory dbN 1).length = 3
      ∧ (admin_create emptyDB 1 "t" "c" "x" 7).sop_versions
          = emptyDB.sop_versions ++
            [{ sop_id := 1, version := 1, title := "t".trim,
               category := "c".trim, content := "x".trim, created_by := 7 }]
      ∧ ∃ rest, dbN.sop_versions = emptyDB.sop_versions ++ rest)
    ∧ (∀ dbA e dbB, admin_update dbA 1 e = some dbB →
        ∃ r, dbB.sop_versions = dbA.sop_versions ++ [r]) :=
  c5_version_monotonicity emptyDB 1 "t" "c" "x" 7 [exEdit1, exEdit2]
    (by intro s hs; simp [emptyDB] at hs)
    (by intro v hv; simp [emptyDB] at hv)

/-- C2 counterexample: module with `recert_days = 30`; a pass on day 0
followed by a failure on day 1; on day 2 a passing attempt exists whose
claimed due date (day 30) has not elapsed, yet `module_status` reports
`due`, because the code derives the due date from the most recent attempt
overall and requires that attempt itself to have passed. -/
theorem c2_counterexample :
    (module_status exDB2 1 1 2).1 = ModuleState.due
    ∧ ∃ p ∈ exDB2.training_attempts, p.passed = true
        ∧ (2 : Int) ≤ dayOf p.attempted_at + 30 := by
  decide

/-- C2 (amended): with the module present, no attempts for the pair means
`not_started`; otherwise the most recent attempt `la` of the pair exists,
and the status is `passed` exactly when `la` itself passed and `today` is
at most `la`'s date plus `recert_days`; the most recent passing attempt's
timestamp is carried as the certificate date in either case. -/
theorem c2_recert_status_amended (db : DB) (module_id staff_id : Nat)
    (today : Int) (m : TrainingModule)
    (hm : db.training_modules.find? (fun x => x.id == module_id) = some m) :
    (pairAttempts db module_id staff_id = [] →
      module_status db module_id staff_id today
        = (ModuleState.not_started, none, none, none))
    ∧ (pairAttempts db module_id staff_id ≠ [] →
      ∃ la, latestAttempt db module_id staff_id = some la
        ∧ la ∈ pairAttempts db module_id staff_id
        ∧ (∀ b ∈ pairAttempts db module_id staff_id,
            b.attempted_at ≤ la.attempted_at)
        ∧ ((module_status db module_id staff_id today).1 = ModuleState.passed
            ↔ (la.passed = true ∧ today ≤ dayOf la.attempted_at + m.recert_days))
        ∧ (module_status db module_id staff_id today).2.2.2
            = (latestPass db module_id staff_id).map (fun p => p.attempted_at)) := by
  constructor
  · intro hnil
    have hla : latestAttempt db module_id staff_id = none := by
      unfold latestAttempt
      rw [hnil]
      rfl
    unfold module_status
    rw [hm, hla]
  · intro hne
    obtain ⟨la, hla⟩ := latestBy_isSome (fun a => a.attempted_at) hne
    have hla2 : latestAttempt db module_id staff_id = some la := hla
    refine ⟨la, hla2, latestBy_mem hla, latestBy_le hla, ?_, ?_⟩
    · unfold module_status
      rw [hm, hla2]
      by_cases hp : la.passed
      · by_cases ht : today ≤ dayOf la.attempted_at + m.recert_days
        · simp [hp, ht]
        · simp [hp, ht]
      · simp [hp]
    · unfold module_status
      rw [hm, hla2]
      by_cases hc : la.passed && decide (today ≤ dayOf la.attempted_at + m.recert_days)
      · simp [hc]
      · simp [hc]

/-- Witness for C2 (amended) on the concrete two-attempt history. -/
theorem c2_recert_status_amended_witness :
    (pairAttempts exDB2 1 1 = [] →
      module_status exDB2 1 1 2 = (ModuleState.not_started, none, none, none))
    ∧ (pairAttempts exDB2 1 1 ≠ [] →
      ∃ la, latestAttempt exDB2 1 1 = some la
        ∧ la ∈ pairAttempts exDB2 1 1
        ∧ (∀ b ∈ pairAttempts exDB2 1 1, b.attempted_at ≤ la.attempted_at)
        ∧ ((module_status exDB2 1 1 2).1 = ModuleState.passed
            ↔ (la.passed = true
                ∧ (2 : Int) ≤ dayOf la.attempted_at + exModule30.recert_days))
        ∧ (module_status exDB2 1 1 2).2.2.2
            = (latestPass exDB2 1 1).map (fun p => p.attempted_at)) :=
  c2_recert_status_amended exDB2 1 1 2 exModule30 (by decide)

/-- C3 counterexample: with `max_attempts = 0` and no attempts in the
window, the claim's formula `locked = (failureCount >= maxAttempts)`
yields locked with failure count 0, but `is_locked_out` returns
`(false, 0)` through its early empty-window return. -/
theorem c3_counterexample :
    lockoutSpec emptyDB 1 1 0 24 0 = (true, 0)
    ∧ is_locked_out emptyDB 1 1 0 24 0 = (false, 0) := by
  decide

/-- C3 (amended): provided no attempt is future-dated, the lockout check
is determined by the attempts in `[now - lockoutWindowHours, now]`: an
empty window yields (false, 0) unconditionally; otherwise a pass in the
window yields (false, 0) and a pass-free window yields the failed count
compared against `max_attempts`. -/
theorem c3_lockout_amended (db : DB) (module_id staff_id : Nat)
    (max_attempts lockout_hours now : Int)
    (hfut : ∀ a ∈ pairAttempts db module_id staff_id, a.attempted_at ≤ now) :
    is_locked_out db module_id staff_id max_attempts lockout_hours now =
      (if (windowAttempts db module_id staff_id lockout_hours now).isEmpty
        then (false, 0)
        else lockoutSpec db module_id staff_id max_attempts lockout_hours now)
    ∧ ((windowAttempts db module_id staff_id lockout_hours now).any
          (fun a => a.passed) = true →
        is_locked_out db module_id staff_id max_attempts lockout_hours now
          = (false, 0)) := by
  have hw : (db.training_attempts.filter
      (fun a => a.module_id == module_id && a.staff_id == staff_id
        && decide (now - lockout_hours * 3600 ≤ a.attempted_at)))
      = windowAttempts db module_id staff_id lockout_hours now := by
    unfold windowAttempts pairAttempts
    rw [List.filter_filter]
    apply List.filter_congr
    intro a ha
    by_cases hA : (a.module_id == module_id) = true
    · by_cases hB : (a.staff_id == staff_id) = true
      · have hmem : a ∈ pairAttempts db module_id staff_id :=
          List.mem_filter.mpr ⟨ha, by simp [hA, hB]⟩
        have hle : a.attempted_at ≤ now := hfut a hmem
        simp [hA, hB, hle]
      · simp [hA, hB]
    · simp [hA]
  have hmain : is_locked_out db module_id staff_id max_attempts lockout_hours now =
      (if (windowAttempts db module_id staff_id lockout_hours now).isEmpty
        then (false, 0)
        else lockoutSpec db module_id staff_id max_attempts lockout_hours now) := by
    unfold is_locked_out lockoutSpec
    simp only [hw]
  refine ⟨hmain, ?_⟩
  intro hp
  have hne : (windowAttempts db module_id staff_id lockout_hours now).isEmpty = false := by
    cases hq : windowAttempts db module_id staff_id lockout_hours now with
    | nil => rw [hq] at hp; simp at hp
    | cons x xs => rfl
  rw [hmain, hne]
  unfold lockoutSpec
  simp [hp]

/-- Witness for C3 (amended): the lockout-reset scenario — three recent
failures and a later pass, all in the 24-hour window; the characterization
applies and forces (false, 0). -/
theorem c3_lockout_amended_witness :
    (is_locked_out exDBReset 1 1 3 24 500 =
      (if (windowAttempts exDBReset 1 1 24 500).isEmpty
        then (false, 0)
        else lockoutSpec exDBReset 1 1 3 24 500)
    ∧ ((windowAttempts exDBReset 1 1 24 500).any (fun a => a.passed) = true →
        is_locked_out exDBReset 1 1 3 24 500 = (false, 0)))
    ∧ (windowAttempts exDBReset 1 1 24 500).any (fun a => a.passed) = true
    ∧ is_locked_out exDBReset 1 1 3 24 500 = (false, 0) :=
  ⟨c3_lockout_amended exDBReset 1 1 3 24 500 (by decide),
    by decide, by decide⟩

theorem acknowledge_ok_appends (db : DB) (sop_id staff_id : Nat)
    (sig : String) (rs now min_rs : Int) (st : Staff) (sop : Sop)
    (hst : db.staff.find? (fun s => s.id == staff_id) = some st)
    (hsop : db.sops.find? (fun s => s.id == sop_id) = some sop)
    (hrs : min_rs ≤ rs) :
    (acknowledge db sop_id staff_id sig rs now min_rs).1 = AckOutcome.ok
    ∧ (acknowledge db sop_id staff_id sig rs now min_rs).2.acknowledgments
        = db.acknowledgments ++
          [{ sop_id := sop_id, staff_id := staff_id,
             sop_version := sop.current_version, staff_name := st.name,
             signature_text := sig.trim, read_seconds := rs,
             acknowledged_at := now }] := by
  have hnot : ¬ rs < min_rs := by omega
  unfold acknowledge
  rw [hst, hsop]
  simp [hnot]

/-- C4: a successful acknowledgment appends exactly one ledger row, and
its `sop_version` field is the `current_version` of the sop row as read
by the call itself — the caller passes no version at all. -/
theorem c4_ack_pins_current_version (db : DB) (sop_id staff_id : Nat)
    (sig : String) (rs now min_rs : Int) (st : Staff) (sop : Sop)
    (hst : db.staff.find? (fun s => s.id == staff_id) = some st)
    (hsop : db.sops.find? (fun s => s.id == sop_id) = some sop)
    (hrs : min_rs ≤ rs) :
    (acknowledge db sop_id staff_id sig rs now min_rs).1 = AckOutcome.ok
    ∧ (acknowledge db sop_id staff_id sig rs now min_rs).2.acknowledgments
        = db.acknowledgments ++
          [{ sop_id := sop_id, staff_id := staff_id,
             sop_version := sop.current_version, staff_name := st.name,
             signature_text := sig.trim, read_seconds := rs,
             acknowledged_at := now }] :=
  acknowledge_ok_appends db sop_id staff_id sig rs now min_rs st sop hst hsop hrs

/-- Witness for C4: acknowledging the version-3 document records a row
pinned to version 3. -/
theorem c4_ack_pins_current_version_witness :
    (acknowledge exDB4 1 1 "sig" 30 1000 10).1 = AckOutcome.ok
    ∧ (acknowledge exDB4 1 1 "sig" 30 1000 10).2.acknowledgments
        = exDB4.acknowledgments ++
          [{ sop_id := 1, staff_id := 1,
             sop_version := exSopV3.current_version, staff_name := exStaffA.name,
             signature_text := "sig".trim, read_seconds := 30,
             acknowledged_at := 1000 }] :=
  c4_ack_pins_current_version exDB4 1 1 "sig" 30 1000 10 exStaffA exSopV3
    (by decide) (by decide) (by decide)

/-- C6: an acknowledgment whose `read_seconds` is below the configured
minimum fails with the below-minimum outcome and leaves the database —
in particular the ledger and its row count — unchanged. -/
theorem c6_below_minimum_not_persisted (db : DB) (sop_id staff_id : Nat)
    (sig : String) (rs now min_rs : Int) (st : Staff) (sop : Sop)
    (hst : db.staff.find? (fun s => s.id == staff_id) = some st)
    (hsop : db.sops.find? (fun s => s.id == sop_id) = some sop)
    (hlow : rs < min_rs) :
    acknowledge db sop_id staff_id sig rs now min_rs
      = (AckOutcome.belowMinimumReadTime, db)
    ∧ (acknowledge db sop_id staff_id sig rs now min_rs).2.acknowledgments.length
        = db.acknowledgments.length := by
  have h : acknowledge db sop_id staff_id sig rs now min_rs
      = (AckOutcome.belowMinimumReadTime, db) := by
    unfold acknowledge
    rw [hst, hsop]
    simp [hlow]
  exact ⟨h, by rw [h]⟩

/-- Witness for C6: `read_seconds = 5` against minimum 10 is rejected
with no ledger row. -/
theorem c6_below_minimum_not_persisted_witness :
    acknowledge exDB4 1 1 "sig" 5 1000 10
      = (AckOutcome.belowMinimumReadTime, exDB4)
    ∧ (acknowledge exDB4 1 1 "sig" 5 1000 10).2.acknowledgments.length
        = exDB4.acknowledgments.length :=
  c6_below_minimum_not_persisted exDB4 1 1 "sig" 5 1000 10 exStaffA exSopV3
    (by decide) (by decide) (by decide)

/-- C7: when the module and its question exist and the lockout check
reports locked, the submission is rejected with the locked outcome for
every possible answer, and the attempt history is unchanged. -/
theorem c7_locked_submission_rejected (db : DB) (module_id staff_id : Nat)
    (answer : String) (max_attempts lockout_hours now : Int)
    (m : TrainingModule) (q : TrainingQuestion)
    (hm : db.training_modules.find? (fun x => x.id == module_id) = some m)
    (hq : firstQuestion db module_id = some q)
    (hl : (is_locked_out db module_id staff_id max_attempts lockout_hours now).1
        = true) :
    learning_module_submit db module_id staff_id answer max_attempts
        lockout_hours now = (SubmitOutcome.locked, db)
    ∧ (learning_module_submit db module_id staff_id answer max_attempts
        lockout_hours now).2.training_attempts = db.training_attempts := by
  have h : learning_module_submit db module_id staff_id answer max_attempts
      lockout_hours now = (SubmitOutcome.locked, db) := by
    unfold learning_module_submit
    rw [hm, hq]
    simp [hl]
  exact ⟨h, by rw [h]⟩

/-- Witness for C7: three recent failures lock the pair; a submission —
even with the correct answer — is rejected and not recorded. -/
theorem c7_locked_submission_rejected_witness :
    learning_module_submit exDBLocked 1 1 "A" 3 24 500
      = (SubmitOutcome.locked, exDBLocked)
    ∧ (learning_module_submit exDBLocked 1 1 "A" 3 24 500).2.training_attempts
        = exDBLocked.training_attempts :=
  c7_locked_submission_rejected exDBLocked 1 1 "A" 3 24 500 exModule30
    { id := 1, module_id := 1, correct_option := "A" }
    (by decide) (by decide) (by decide)

/-- C8 counterexample: an inactive staff member with a valid document and
sufficient read time records an acknowledgment successfully — the handler
checks only that the staff row exists, never its `active` flag — refuting
the claim that an inactive staff member cannot record one. -/
theorem c8_counterexample :
    exStaffInactive ∈ exDB8.staff
    ∧ exStaffInactive.active = false
    ∧ (acknowledge exDB8 1 1 "sig" 30 1000 10).1 = AckOutcome.ok
    ∧ (acknowledge exDB8 1 1 "sig" 30 1000 10).2.acknowledgments.length
        = exDB8.acknowledgments.length + 1 := by
  decide

/-- C8 (amended): the acknowledgment fails — inserting nothing — exactly
when the staff id or the document id has no row; the staff `active` flag
is not checked, so an inactive existing staff member's acknowledgment is
accepted and appended. -/
theorem c8_unknown_ids_rejected (db : DB) (sop_id staff_id : Nat)
    (sig : String) (rs now min_rs : Int) :
    (db.staff.find? (fun s => s.id == staff_id) = none →
      acknowledge db sop_id staff_id sig rs now min_rs
        = (AckOutcome.unknownStaffOrDocument, db))
    ∧ (db.sops.find? (fun s => s.id == sop_id) = none →
      acknowledge db sop_id staff_id sig rs now min_rs
        = (AckOutcome.unknownStaffOrDocument, db))
    ∧ (∀ st sop, db.staff.find? (fun s => s.id == staff_id) = some st →
        st.active = false →
        db.sops.find? (fun s => s.id == sop_id) = some sop →
        min_rs ≤ rs →
        (acknowledge db sop_id staff_id sig rs now min_rs).1 = AckOutcome.ok
        ∧ (acknowledge db sop_id staff_id sig rs now
            min_rs).2.acknowledgments.length
            = db.acknowledgments.length + 1) := by
  refine ⟨?_, ?_, ?_⟩
  · intro h
    unfold acknowledge
    rw [h]
  · intro h
    unfold acknowledge
    rw [h]
    cases db.staff.find? (fun s => s.id == staff_id) <;> rfl
  · intro st sop hst hina hsop hrs
    have h := acknowledge_ok_appends db sop_id staff_id sig rs now min_rs
      st sop hst hsop hrs
    exact ⟨h.1, by rw [h.2]; simp⟩

/-- Witness for C8 (amended): an unknown staff id is rejected with no
insert; the existing but inactive staff member is accepted and a row is
appended. -/
theorem c8_unknown_ids_rejected_witness :
    acknowledge exDB8 1 99 "sig" 30 1000 10
      = (AckOutcome.unknownStaffOrDocument, exDB8)
    ∧ (acknowledge exDB8 1 1 "sig" 30 1000 10).1 = AckOutcome.ok
    ∧ (acknowledge exDB8 1 1 "sig" 30 1000 10).2.acknowledgments.length
        = exDB8.acknowledgments.length + 1 :=
  ⟨(c8_unknown_ids_rejected exDB8 1 99 "sig" 30 1000 10).1 (by decide),
    (c8_unknown_ids_rejected exDB8 1 1 "sig" 30 1000 10).2.2
      exStaffInactive exSopV3 (by decide) (by decide) (by decide) (by decide)⟩

/-- C9: with an empty active roster or an empty document set, the overall
percentage is 0 (computed through the guard, with no division) and the
overdue list is empty, and every per-staff completion percentage is 0;
likewise the LMS snapshot is empty when the roster or active module set
is empty. -/
theorem c9_zero_denominator_safety (db : DB) (eS : Int) (eD : Option Int)
    (today : Int) :
    ((dashStaff db = [] ∨ db.sops = []) →
      overall_percent db eS eD = 0
      ∧ overdue db eS eD = []
      ∧ ∀ r ∈ staff_completion db eS eD, r.percent = 0)
    ∧ ((dashStaff db = [] ∨ lms_modules db = []) →
      lms_rows db today = ([], [])) := by
  constructor
  · intro h
    have hz : (dashStaff db).length = 0 ∨ db.sops.length = 0 := by
      rcases h with h | h
      · exact Or.inl (by rw [h]; rfl)
      · exact Or.inr (by rw [h]; rfl)
    refine ⟨?_, ?_, ?_⟩
    · unfold overall_percent
      rcases hz with hz | hz <;> simp [hz]
    · unfold overdue
      rcases hz with hz | hz <;> simp [hz]
    · intro r hr
      unfold staff_completion at hr
      obtain ⟨s, hsmem, hs⟩ := List.mem_map.mp hr
      rcases h with h | h
      · rw [h] at hsmem
        simp at hsmem
      · rw [← hs]
        simp [h]
  · intro h
    unfold lms_rows
    rcases h with h | h <;> simp [h]

/-- Witness for C9 on the empty database. -/
theorem c9_zero_denominator_safety_witness :
    (overall_percent emptyDB 0 none = 0
      ∧ overdue emptyDB 0 none = []
      ∧ ∀ r ∈ staff_completion emptyDB 0 none, r.percent = 0)
    ∧ lms_rows emptyDB 0 = ([], []) :=
  ⟨(c9_zero_denominator_safety emptyDB 0 none 0).1 (Or.inl rfl),
    (c9_zero_denominator_safety emptyDB 0 none 0).2 (Or.inl rfl)⟩

theorem setAckVersions_acks (f : Acknowledgment → Nat) (db : DB) :
    (setAckVersions f db).acknowledgments
      = db.acknowledgments.map (fun a => { a with sop_version := f a }) := rfl

theorem setAckVersions_staff (f : Acknowledgment → Nat) (db : DB) :
    (setAckVersions f db).staff = db.staff := rfl

theorem staffCounted_setAckVersions (db : DB) (f : Acknowledgment → Nat)
    (eS : Int) (eD : Option Int) (sop_id staff_id : Nat) :
    staffCountedForSop (setAckVersions f db) eS eD sop_id staff_id
      = staffCountedForSop db eS eD sop_id staff_id := by
  unfold staffCountedForSop
  rw [setAckVersions_acks, List.any_map]
  rfl

/-- C10: the effective window start is never earlier than
`today - reack_days`; an absent or unparseable `start_date` falls back to
that cutoff, as does a supplied date earlier than it; every
acknowledgment passing the window clause is dated on or after the
cutoff, and dropping older ledger rows changes no per-document count. -/
theorem c10_effective_window_clamped (db : DB) (today reack_days : Int)
    (p : StartParam) (eD : Option Int) (sop_id : Nat) :
    today - reack_days ≤ effective_start today reack_days p
    ∧ effective_start today reack_days StartParam.absent = today - reack_days
    ∧ effective_start today reack_days StartParam.malformed = today - reack_days
    ∧ (∀ s, s < today - reack_days →
        effective_start today reack_days (StartParam.valid s)
          = today - reack_days)
    ∧ (∀ a, ackInWindow (effective_start today reack_days p) eD a = true →
        today - reack_days ≤ dayOf a.acknowledged_at)
    ∧ ack_count_for_sop (dropOldAcks (today - reack_days) db)
        (effective_start today reack_days p) eD sop_id
      = ack_count_for_sop db (effective_start today reack_days p) eD sop_id := by
  have hcut : today - reack_days ≤ effective_start today reack_days p := by
    cases p with
    | absent => exact le_refl _
    | malformed => exact le_refl _
    | valid s =>
      simp only [effective_start]
      split <;> omega
  have hwin : ∀ a, ackInWindow (effective_start today reack_days p) eD a = true →
      today - reack_days ≤ dayOf a.acknowledged_at := by
    intro a ha
    unfold ackInWindow at ha
    rw [Bool.and_eq_true] at ha
    have h1 := of_decide_eq_true ha.1
    omega
  refine ⟨hcut, rfl, rfl, ?_, hwin, ?_⟩
  · intro s hs
    simp only [effective_start]
    split <;> omega
  · unfold ack_count_for_sop
    have hact : ∀ x, isActiveStaffId (dropOldAcks (today - reack_days) db) x
        = isActiveStaffId db x := fun x => rfl
    simp only [hact]
    rw [show (dropOldAcks (today - reack_days) db).acknowledgments
        = db.acknowledgments.filter
          (fun a => decide (today - reack_days ≤ dayOf a.acknowledged_at))
      from rfl]
    simp only [List.filter_filter]
    have hside : ∀ a ∈ db.acknowledgments,
        ((a.sop_id == sop_id && isActiveStaffId db a.staff_id
            && ackInWindow (effective_start today reack_days p) eD a)
          && decide (today - reack_days ≤ dayOf a.acknowledged_at))
        = (a.sop_id == sop_id && isActiveStaffId db a.staff_id
            && ackInWindow (effective_start today reack_days p) eD a) := by
      intro a ha
      by_cases hP : (a.sop_id == sop_id && isActiveStaffId db a.staff_id
          && ackInWindow (effective_start today reack_days p) eD a) = true
      · have hQ : decide (today - reack_days ≤ dayOf a.acknowledged_at) = true := by
          rw [Bool.and_eq_true] at hP
          exact decide_eq_true (hwin a hP.2)
        rw [hP, hQ]
        rfl
      · rw [Bool.eq_false_iff.mpr hP]
        simp
    rw [List.filter_congr hside]

/-- Witness for C10 at a concrete dashboard state: a requested start date
far before the cutoff is clamped, and old rows do not change the count. -/
theorem c10_effective_window_clamped_witness :
    (20000 : Int) - 365 ≤ effective_start 20000 365 (StartParam.valid 100)
    ∧ effective_start 20000 365 StartParam.absent = 20000 - 365
    ∧ effective_start 20000 365 StartParam.malformed = 20000 - 365
    ∧ (∀ s, s < (20000 : Int) - 365 →
        effective_start 20000 365 (StartParam.valid s) = 20000 - 365)
    ∧ (∀ a, ackInWindow (effective_start 20000 365 (StartParam.valid 100)) none a
          = true →
        (20000 : Int) - 365 ≤ dayOf a.acknowledged_at)
    ∧ ack_count_for_sop (dropOldAcks (20000 - 365) exDB1)
        (effective_start 20000 365 (StartParam.valid 100)) none 1
      = ack_count_for_sop exDB1
          (effective_start 20000 365 (StartParam.valid 100)) none 1 :=
  c10_effective_window_clamped exDB1 20000 365 (StartParam.valid 100) none 1

/-- C1 counterexample: document at `current_version` 3, active staff
member whose only (hence latest) acknowledgment is at version 2 with a
recent timestamp inside the window: the dashboard counts the pair as
compliant and the staff member is absent from the overdue list, refuting
the only-if-version-matches condition. -/
theorem c1_counterexample :
    ack_count_for_sop exDB1 (effective_start 20000 365 StartParam.absent) none 1
      = 1
    ∧ missing_staff_for exDB1 (effective_start 20000 365 StartParam.absent)
        none 1 = []
    ∧ (latestAcknowledgment exDB1 1 1).map (fun a => a.sop_version) = some 2
    ∧ currentVersionOf exDB1 1 = some 3 := by
  decide

/-- C1 (amended): an active staff member is counted by the rollups for a
document — equivalently, excluded from its overdue list — exactly when
they have at least one acknowledgment of it dated inside the effective
window; the acknowledgment's recorded `sop_version` is never consulted:
rewriting every ledger row's version field arbitrarily changes neither
the counted pairs, nor the per-document counts, nor the overdue lists. -/
theorem c1_rollup_version_blind (db : DB) (eS : Int) (eD : Option Int)
    (sop_id : Nat) (s : Staff) (f : Acknowledgment → Nat)
    (hmem : s ∈ db.staff) (hact : s.active = true) :
    (s ∈ missing_staff_for db eS eD sop_id
      ↔ staffCountedForSop db eS eD sop_id s.id = false)
    ∧ (staffCountedForSop db eS eD sop_id s.id = true
      ↔ ∃ a ∈ db.acknowledgments, a.sop_id = sop_id ∧ a.staff_id = s.id
          ∧ eS ≤ dayOf a.acknowledged_at
          ∧ (∀ e, eD = some e → dayOf a.acknowledged_at ≤ e))
    ∧ staffCountedForSop (setAckVersions f db) eS eD sop_id s.id
        = staffCountedForSop db eS eD sop_id s.id
    ∧ ack_count_for_sop (setAckVersions f db) eS eD sop_id
        = ack_count_for_sop db eS eD sop_id
    ∧ missing_staff_for (setAckVersions f db) eS eD sop_id
        = missing_staff_for db eS eD sop_id := by
  refine ⟨?_, ?_, staffCounted_setAckVersions db f eS eD sop_id s.id, ?_, ?_⟩
  · unfold missing_staff_for dashStaff
    rw [List.mem_filter, List.mem_filter]
    constructor
    · rintro ⟨⟨hmem2, hact2⟩, hnc⟩
      rwa [Bool.not_eq_true'] at hnc
    · intro hnc
      exact ⟨⟨hmem, hact⟩, by rwa [Bool.not_eq_true']⟩
  · cases eD with
    | none =>
      unfold staffCountedForSop ackInWindow
      simp [List.any_eq_true, and_assoc]
    | some e =>
      unfold staffCountedForSop ackInWindow
      simp [List.any_eq_true, and_assoc]
  · unfold ack_count_for_sop
    have hact2 : ∀ x, isActiveStaffId (setAckVersions f db) x
        = isActiveStaffId db x := fun x => rfl
    simp only [hact2]
    rw [setAckVersions_acks, List.filter_map, List.map_map]
    rfl
  · unfold missing_staff_for dashStaff
    rw [setAckVersions_staff]
    apply List.filter_congr
    intro x hx
    rw [staffCounted_setAckVersions]

/-- Witness for C1 (amended) on the concrete version-mismatch database. -/
theorem c1_rollup_version_blind_witness :
    (exStaffA ∈ missing_staff_for exDB1 19635 none 1
      ↔ staffCountedForSop exDB1 19635 none 1 exStaffA.id = false)
    ∧ (staffCountedForSop exDB1 19635 none 1 exStaffA.id = true
      ↔ ∃ a ∈ exDB1.acknowledgments, a.sop_id = 1 ∧ a.staff_id = exStaffA.id
          ∧ (19635 : Int) ≤ dayOf a.acknowledged_at
          ∧ (∀ e, (none : Option Int) = some e → dayOf a.acknowledged_at ≤ e))
    ∧ staffCountedForSop (setAckVersions (fun _ => 0) exDB1) 19635 none 1
        exStaffA.id
        = staffCountedForSop exDB1 19635 none 1 exStaffA.id
    ∧ ack_count_for_sop (setAckVersions (fun _ => 0) exDB1) 19635 none 1
        = ack_count_for_sop exDB1 19635 none 1
    ∧ missing_staff_for (setAckVersions (fun _ => 0) exDB1) 19635 none 1
        = missing_staff_for exDB1 19635 none 1 :=
  c1_rollup_version_blind exDB1 19635 none 1 exStaffA (fun _ => 0)
    (by decide) (by decide)
